import Mathlib

/-!
Shallow embedding of `src/python/src/uagents/storage/__init__.py`:
the file-backed `KeyValueStore` and the private-key credential
repository (`load_all_keys`, `save_private_keys`,
`get_or_create_private_keys`).

Modelling conventions:
* JSON documents decoded by Python's `json` module are represented by
  the inductive `Json`; Python `None` is JSON `null`.
* Python dictionaries (insertion-ordered, unique keys) are represented
  by association lists; `dictGet`, `dictHas`, `dictInsert`,
  `dictRemove` mirror `d.get(k)`, `k in d`, `d[k] = v` and `del d[k]`
  on such lists (first occurrence wins, updates happen in place,
  fresh keys are appended).
* The filesystem is a partial map from path strings to `FileContent`.
  The store and the credential code only ever treat a successfully
  parsed backing file as a dict, so a readable file is modelled as a
  JSON object (`FileContent.json`); a file whose text does not parse
  as JSON is `FileContent.notJson` and makes `json.load` raise, which
  the embedding represents with `Except.error StorageError.malformedJson`.
* The external key-generation primitives (`Identity.generate()` and
  `PrivateKey()`) are opaque collaborators; they are modelled by a
  `KeyGen` oracle giving the successive outputs of each primitive and
  a `GenCount` counter recording how many times each has been invoked.
-/

/-- JSON values as decoded by Python's `json` module.  Numbers are kept
as integers: no claim involves fractional values. -/
inductive Json where
  | null : Json
  | bool : Bool → Json
  | num : Int → Json
  | str : String → Json
  | arr : List Json → Json
  | obj : List (String × Json) → Json

/-- A Python dict decoded from JSON: an insertion-ordered association
list with (by construction) unique keys. -/
abbrev JsonDict := List (String × Json)

/-- `d.get(k)` on a dict: the value at the first matching key, if any. -/
def dictGet : JsonDict → String → Option Json
  | [], _ => none
  | (a, b) :: t, k => if a == k then some b else dictGet t k

/-- `k in d` on a dict. -/
def dictHas : JsonDict → String → Bool
  | [], _ => false
  | (a, _) :: t, k => a == k || dictHas t k

/-- `d[k] = v` on a dict: replace the value at an existing key in
place, otherwise append the new entry at the end. -/
def dictInsert : JsonDict → String → Json → JsonDict
  | [], k, v => [(k, v)]
  | (a, b) :: t, k, v => if a == k then (k, v) :: t else (a, b) :: dictInsert t k v

/-- `del d[k]` on a dict (the key occurs at most once). -/
def dictRemove : JsonDict → String → JsonDict
  | [], _ => []
  | (a, b) :: t, k => if a == k then dictRemove t k else (a, b) :: dictRemove t k

/-- Python truthiness of a decoded JSON value (`if private_keys:`). -/
def Json.truthy : Json → Bool
  | .null => false
  | .bool b => b
  | .num n => n != 0
  | .str s => s != ""
  | .arr l => !l.isEmpty
  | .obj m => !m.isEmpty

/-- Content of an existing file, as far as `json.load` is concerned:
either text that parses as a JSON object (the only shape the storage
code ever writes or consumes as a dict), or text that is not valid
JSON. -/
inductive FileContent where
  | json : JsonDict → FileContent
  | notJson : FileContent

/-- The filesystem: `none` means no file exists at the path. -/
def FS := String → Option FileContent

/-- `json.dump(m, open(p, "w"))`: overwrite the file at `p` with the
serialized mapping `m`. -/
def writeFile (fs : FS) (p : String) (m : JsonDict) : FS :=
  fun q => if q = p then some (.json m) else fs q

/-- Errors raised by the Python code and propagated to the caller. -/
inductive StorageError where
  | malformedJson : StorageError
  | keyError : StorageError
  | typeError : StorageError
  deriving DecidableEq, Repr

/-- In-memory state of a `KeyValueStore` instance: `_name`, `_path`
and `_data`. -/
structure KeyValueStore where
  name : String
  path : String
  data : JsonDict

/-- `os.path.join(cwd, f"{name}_data.json")`. -/
def storeDataPath (cwd nm : String) : String :=
  cwd ++ "/" ++ nm ++ "_data.json"

/-- `KeyValueStore.__init__(name, cwd)`: `self._name = name or "my"`,
derive the path, and if a file exists there load it (`_load`, i.e.
`json.load`); a malformed file makes the constructor raise.  The `cwd`
argument is the resolved working directory (`cwd or os.getcwd()`). -/
def KeyValueStore.init (nameArg cwd : String) (fs : FS) :
    Except StorageError KeyValueStore :=
  let nm := if nameArg = "" then "my" else nameArg
  let path := storeDataPath cwd nm
  match fs path with
  | none => .ok ⟨nm, path, []⟩
  | some (.json m) => .ok ⟨nm, path, m⟩
  | some .notJson => .error .malformedJson

/-- `self._data.get(key)`.  Python returns `None` both for a missing
key and for a stored `null`, so the result type is `Json` with `null`
as the absent indicator. -/
def KeyValueStore.get (s : KeyValueStore) (key : String) : Json :=
  (dictGet s.data key).getD .null

/-- `key in self._data`. -/
def KeyValueStore.has (s : KeyValueStore) (key : String) : Bool :=
  dictHas s.data key

/-- `_save`: `json.dump(self._data, open(self._path, "w"))`. -/
def KeyValueStore._save (s : KeyValueStore) (fs : FS) : FS :=
  writeFile fs s.path s.data

/-- `set(key, value)`: update `_data`, then `_save`. -/
def KeyValueStore.set (s : KeyValueStore) (fs : FS) (key : String) (value : Json) :
    KeyValueStore × FS :=
  let s' : KeyValueStore := ⟨s.name, s.path, dictInsert s.data key value⟩
  (s', s'._save fs)

/-- `remove(key)`: if the key is present, delete it and `_save`;
otherwise do nothing (no write, no error). -/
def KeyValueStore.remove (s : KeyValueStore) (fs : FS) (key : String) :
    KeyValueStore × FS :=
  if dictHas s.data key then
    let s' : KeyValueStore := ⟨s.name, s.path, dictRemove s.data key⟩
    (s', s'._save fs)
  else
    (s, fs)

/-- `clear()`: empty `_data` unconditionally and `_save`. -/
def KeyValueStore.clear (s : KeyValueStore) (fs : FS) : KeyValueStore × FS :=
  let s' : KeyValueStore := ⟨s.name, s.path, []⟩
  (s', s'._save fs)

/-! ### Credential repository -/

/-- `os.path.join(os.getcwd(), "private_keys.json")`; the ambient
current working directory is passed explicitly. -/
def privateKeysPath (cwd : String) : String :=
  cwd ++ "/private_keys.json"

/-- `load_all_keys()`: read and parse `private_keys.json` if it
exists, otherwise return the empty mapping; `json.load` raises on
malformed content. -/
def load_all_keys (fs : FS) (cwd : String) : Except StorageError JsonDict :=
  match fs (privateKeysPath cwd) with
  | none => .ok []
  | some (.json m) => .ok m
  | some .notJson => .error .malformedJson

/-- `save_private_keys(name, identity_key, wallet_key)`: load the full
current mapping, insert/overwrite the record for `nm`, and rewrite the
whole file. -/
def save_private_keys (fs : FS) (cwd nm identity_key wallet_key : String) :
    Except StorageError FS :=
  match load_all_keys fs cwd with
  | .error e => .error e
  | .ok private_keys =>
    .ok (writeFile fs (privateKeysPath cwd)
      (dictInsert private_keys nm
        (.obj [("identity_key", .str identity_key),
               ("wallet_key", .str wallet_key)])))

/-- Successive outputs of the two external key-generation primitives:
`identityKeys i` is the `i`-th result of `Identity.generate().private_key`
and `walletKeys i` the `i`-th result of `PrivateKey().private_key`. -/
structure KeyGen where
  identityKeys : Nat → String
  walletKeys : Nat → String

/-- How many times each generation primitive has been invoked so far. -/
structure GenCount where
  idGen : Nat
  wGen : Nat
  deriving DecidableEq, Repr

/-- `private_keys["identity_key"]`: subscripting a decoded JSON value;
a missing key raises `KeyError`, subscripting a non-dict raises
`TypeError`. -/
def recordIndex (r : Json) (k : String) : Except StorageError Json :=
  match r with
  | .obj m =>
    match dictGet m k with
    | some v => .ok v
    | none => .error .keyError
  | _ => .error .typeError

/-- The fall-through tail of `get_or_create_private_keys` (the
creation path):
```
identity_key = Identity.generate().private_key
wallet_key = PrivateKey().private_key
save_private_keys(name, identity_key, PrivateKey().private_key)
return identity_key, wallet_key
```
`PrivateKey()` is invoked twice: the first output (`c.wGen`) is bound
to `wallet_key` and returned, the second (`c.wGen + 1`) is evaluated
as the argument of `save_private_keys` and persisted. -/
def createAndSave (g : KeyGen) (fs : FS) (c : GenCount) (cwd nm : String) :
    Except StorageError ((Json × Json) × FS × GenCount) :=
  let identity_key := g.identityKeys c.idGen
  let wallet_key := g.walletKeys c.wGen
  match save_private_keys fs cwd nm identity_key (g.walletKeys (c.wGen + 1)) with
  | .error e => .error e
  | .ok fs2 =>
    .ok ((.str identity_key, .str wallet_key), fs2, ⟨c.idGen + 1, c.wGen + 2⟩)

/-- `get_or_create_private_keys(name)`: load all records; if `nm` is
present and its record is truthy, return the record's two key fields;
otherwise fall through to the creation path.  The result carries the
returned pair together with the resulting filesystem and generator
counter. -/
def get_or_create_private_keys (g : KeyGen) (fs : FS) (c : GenCount)
    (cwd nm : String) : Except StorageError ((Json × Json) × FS × GenCount) :=
  match load_all_keys fs cwd with
  | .error e => .error e
  | .ok keys =>
    if dictHas keys nm then
      match dictGet keys nm with
      | some private_keys =>
        if private_keys.truthy then
          match recordIndex private_keys "identity_key",
                recordIndex private_keys "wallet_key" with
          | .ok i, .ok w => .ok ((i, w), fs, c)
          | .error e, _ => .error e
          | .ok _, .error e => .error e
        else createAndSave g fs c cwd nm
      | none => createAndSave g fs c cwd nm
    else createAndSave g fs c cwd nm

/-! ### Dict lemmas -/

theorem dictGet_insert_self (d : JsonDict) (k : String) (v : Json) :
    dictGet (dictInsert d k v) k = some v := by
  induction d with
  | nil => simp [dictInsert, dictGet]
  | cons p t ih =>
    obtain ⟨a, b⟩ := p
    by_cases h : a = k
    · subst h
      simp [dictInsert, dictGet]
    · have hb : (a == k) = false := by simp [h]
      simp [dictInsert, dictGet, hb, ih]

theorem dictHas_insert_self (d : JsonDict) (k : String) (v : Json) :
    dictHas (dictInsert d k v) k = true := by
  induction d with
  | nil => simp [dictInsert, dictHas]
  | cons p t ih =>
    obtain ⟨a, b⟩ := p
    by_cases h : a = k
    · subst h
      simp [dictInsert, dictHas]
    · have hb : (a == k) = false := by simp [h]
      simp [dictInsert, dictHas, hb, ih]

theorem dictGet_insert_ne (d : JsonDict) (k : String) (v : Json) (n : String)
    (hne : n ≠ k) : dictGet (dictInsert d k v) n = dictGet d n := by
  have hkn : (k == n) = false := by simp [Ne.symm hne]
  induction d with
  | nil => simp [dictInsert, dictGet, hkn]
  | cons p t ih =>
    obtain ⟨a, b⟩ := p
    by_cases h : a = k
    · subst h
      simp [dictInsert, dictGet, hkn]
    · have hb : (a == k) = false := by simp [h]
      by_cases han : a = n
      · subst han
        simp [dictInsert, dictGet, hb]
      · have hbn : (a == n) = false := by simp [han]
        simp [dictInsert, dictGet, hb, hbn, ih]

theorem dictGet_eq_none_of_not_has (d : JsonDict) (k : String)
    (h : dictHas d k = false) : dictGet d k = none := by
  induction d with
  | nil => simp [dictGet]
  | cons p t ih =>
    obtain ⟨a, b⟩ := p
    simp [dictHas] at h
    simp [dictGet, h.1, ih h.2]

theorem dictHas_of_get_some (d : JsonDict) (k : String) (v : Json)
    (h : dictGet d k = some v) : dictHas d k = true := by
  induction d with
  | nil => simp [dictGet] at h
  | cons p t ih =>
    obtain ⟨a, b⟩ := p
    by_cases hak : (a == k) = true
    · simp [dictHas, hak]
    · have hb : (a == k) = false := by simpa using hak
      simp [dictGet, hb] at h
      simp [dictHas, hb, ih h]

/-! ### Claims about the KeyValueStore -/

/-- C2: for every key and JSON value, after `set(key, value)` on a
`KeyValueStore`, `get(key)` returns a value equal to `value` and
`has(key)` returns true. -/
theorem set_then_get_and_has (s : KeyValueStore) (fs : FS) (key : String)
    (value : Json) :
    (s.set fs key value).1.get key = value ∧
      (s.set fs key value).1.has key = true := by
  constructor
  · simp [KeyValueStore.set, KeyValueStore.get, dictGet_insert_self]
  · simp [KeyValueStore.set, KeyValueStore.has, dictHas_insert_self]

/-- C3: round-trip persistence: after a store whose path was derived
from `(name, workingDirectory)` saves its data, constructing a new
`KeyValueStore` with the same `(name, workingDirectory)` loads an
in-memory mapping equal to the one the prior instance last saved. -/
theorem init_after_save_roundtrip (nameArg cwd : String) (fs : FS)
    (s : KeyValueStore)
    (hp : s.path = storeDataPath cwd (if nameArg = "" then "my" else nameArg)) :
    ∃ s', KeyValueStore.init nameArg cwd (s._save fs) = .ok s' ∧
      s'.data = s.data := by
  refine ⟨⟨if nameArg = "" then "my" else nameArg,
    storeDataPath cwd (if nameArg = "" then "my" else nameArg), s.data⟩, ?_, rfl⟩
  simp [KeyValueStore.init, KeyValueStore._save, writeFile, hp]

/-- Witness for C3 at a concrete store, name and directory. -/
theorem init_after_save_roundtrip_witness :
    (⟨"my", storeDataPath "/w" "my", [("a", Json.num 1)]⟩ : KeyValueStore).path
        = storeDataPath "/w" (if "" = "" then "my" else "") ∧
    ∃ s', KeyValueStore.init "" "/w"
        (KeyValueStore._save ⟨"my", storeDataPath "/w" "my", [("a", Json.num 1)]⟩
          (fun _ => none)) = .ok s' ∧
      s'.data = [("a", Json.num 1)] :=
  ⟨rfl, init_after_save_roundtrip "" "/w" (fun _ => none)
    ⟨"my", storeDataPath "/w" "my", [("a", Json.num 1)]⟩ rfl⟩

/-- C4: `remove(key)` on an absent key is a no-op: the store state and
the filesystem are returned unchanged (no write), and no error is
raised. -/
theorem remove_absent_is_noop (s : KeyValueStore) (fs : FS) (key : String)
    (h : s.has key = false) : s.remove fs key = (s, fs) := by
  simp only [KeyValueStore.has] at h
  simp [KeyValueStore.remove, h]

/-- Witness for C4: removing a key that is not in the store. -/
theorem remove_absent_is_noop_witness :
    (⟨"my", "/w/my_data.json", [("a", Json.num 1)]⟩ : KeyValueStore).has "b"
        = false ∧
    KeyValueStore.remove ⟨"my", "/w/my_data.json", [("a", Json.num 1)]⟩
        (fun _ => none) "b"
      = (⟨"my", "/w/my_data.json", [("a", Json.num 1)]⟩, (fun _ => none)) :=
  ⟨rfl, remove_absent_is_noop ⟨"my", "/w/my_data.json", [("a", Json.num 1)]⟩
    (fun _ => none) "b" rfl⟩

/-- C6: if the backing file exists at the store's derived path but its
content is not valid JSON, construction raises the parse error (so the
store is never silently initialized to an empty mapping). -/
theorem init_malformed_file_errors (nameArg cwd : String) (fs : FS)
    (h : fs (storeDataPath cwd (if nameArg = "" then "my" else nameArg))
        = some .notJson) :
    KeyValueStore.init nameArg cwd fs = .error .malformedJson := by
  simp [KeyValueStore.init, h]

/-- Witness for C6: a filesystem holding invalid JSON at the store's
path. -/
theorem init_malformed_file_errors_witness :
    (fun p => if p = storeDataPath "/w" "store" then some FileContent.notJson
      else none : FS)
        (storeDataPath "/w" (if "store" = "" then "my" else "store"))
      = some .notJson ∧
    KeyValueStore.init "store" "/w"
        (fun p => if p = storeDataPath "/w" "store" then some FileContent.notJson
          else none)
      = .error .malformedJson :=
  ⟨rfl, init_malformed_file_errors "store" "/w"
    (fun p => if p = storeDataPath "/w" "store" then some FileContent.notJson
      else none) rfl⟩

/-- C10: after `set(key, null)` the store has the key, but `get(key)`
returns the same absent indicator (`null`, Python `None`) as a store
that never had the key, so `get` alone cannot distinguish them. -/
theorem set_null_indistinguishable_from_missing (s t : KeyValueStore) (fs : FS)
    (key : String) (h : t.has key = false) :
    (s.set fs key .null).1.has key = true ∧
      (s.set fs key .null).1.get key = t.get key := by
  have ht : dictGet t.data key = none :=
    dictGet_eq_none_of_not_has _ _ (by simpa [KeyValueStore.has] using h)
  constructor
  · simp [KeyValueStore.set, KeyValueStore.has, dictHas_insert_self]
  · simp [KeyValueStore.set, KeyValueStore.get, dictGet_insert_self, ht]

/-- Witness for C10 at a concrete pair of stores. -/
theorem set_null_indistinguishable_from_missing_witness :
    (⟨"my", "/w/my_data.json", []⟩ : KeyValueStore).has "k" = false ∧
    ((⟨"my", "/w/my_data.json", [("x", Json.num 2)]⟩ : KeyValueStore).set
        (fun _ => none) "k" .null).1.has "k" = true ∧
      ((⟨"my", "/w/my_data.json", [("x", Json.num 2)]⟩ : KeyValueStore).set
          (fun _ => none) "k" .null).1.get "k"
        = (⟨"my", "/w/my_data.json", []⟩ : KeyValueStore).get "k" :=
  ⟨rfl, set_null_indistinguishable_from_missing
    ⟨"my", "/w/my_data.json", [("x", Json.num 2)]⟩
    ⟨"my", "/w/my_data.json", []⟩ (fun _ => none) "k" rfl⟩

/-! ### Concrete fixtures used by witnesses and counterexamples -/

/-- A generator oracle whose successive outputs are pairwise distinct
(`id0`, `id1`, … and `w0`, `w1`, …). -/
def gTest : KeyGen :=
  ⟨fun i => "id" ++ toString i, fun i => "w" ++ toString i⟩

/-- An empty filesystem. -/
def fsEmpty : FS := fun _ => none

/-- The stored record for `alice` with both key fields present. -/
def recAlice : Json :=
  .obj [("identity_key", .str "A"), ("wallet_key", .str "B")]

/-- A filesystem whose credential file holds `alice`'s full record. -/
def fsAlice : FS := fun p =>
  if p = privateKeysPath "/w" then some (.json [("alice", recAlice)]) else none

/-! ### Claims about the credential repository -/

/-- C5: if the record for a name is present in the credential file and
non-empty (with both key fields stored), `get_or_create_private_keys`
returns the stored pair and performs no key generation (counter
unchanged) and no write (filesystem unchanged). -/
theorem get_or_create_existing_record (g : KeyGen) (fs : FS) (c : GenCount)
    (cwd nm : String) (m r : JsonDict) (a b : Json)
    (hf : load_all_keys fs cwd = .ok m)
    (hr : dictGet m nm = some (.obj r))
    (hne : r ≠ [])
    (ha : dictGet r "identity_key" = some a)
    (hb : dictGet r "wallet_key" = some b) :
    get_or_create_private_keys g fs c cwd nm = .ok ((a, b), fs, c) := by
  have hhas : dictHas m nm = true := dictHas_of_get_some _ _ _ hr
  have htr : (Json.obj r).truthy = true := by
    cases r with
    | nil => exact absurd rfl hne
    | cons p t => rfl
  simp [get_or_create_private_keys, hf, hhas, hr, htr, recordIndex, ha, hb]

/-- Witness for C5: a pre-existing credential file with
`{"alice": {"identity_key": "A", "wallet_key": "B"}}`. -/
theorem get_or_create_existing_record_witness :
    load_all_keys fsAlice "/w" = .ok [("alice", recAlice)] ∧
    dictGet [("alice", recAlice)] "alice"
      = some (.obj [("identity_key", Json.str "A"), ("wallet_key", Json.str "B")]) ∧
    ([("identity_key", Json.str "A"), ("wallet_key", Json.str "B")] : JsonDict) ≠ [] ∧
    dictGet [("identity_key", Json.str "A"), ("wallet_key", Json.str "B")]
      "identity_key" = some (Json.str "A") ∧
    dictGet [("identity_key", Json.str "A"), ("wallet_key", Json.str "B")]
      "wallet_key" = some (Json.str "B") ∧
    get_or_create_private_keys gTest fsAlice ⟨0, 0⟩ "/w" "alice"
      = .ok ((Json.str "A", Json.str "B"), fsAlice, ⟨0, 0⟩) :=
  ⟨rfl, rfl, by simp, rfl, rfl,
    get_or_create_existing_record gTest fsAlice ⟨0, 0⟩ "/w" "alice"
      [("alice", recAlice)]
      [("identity_key", Json.str "A"), ("wallet_key", Json.str "B")]
      (Json.str "A") (Json.str "B") rfl rfl (by simp) rfl rfl⟩

/-- C7: `save_private_keys` rewrites the credential file so that its
mapping is the prior mapping with the record for `nm` inserted or
overwritten, and every other name's record is unchanged. -/
theorem save_private_keys_updates_one_record (fs : FS) (cwd nm idk wk : String)
    (m : JsonDict) (h : load_all_keys fs cwd = .ok m) :
    save_private_keys fs cwd nm idk wk =
      .ok (writeFile fs (privateKeysPath cwd)
        (dictInsert m nm (.obj [("identity_key", .str idk),
          ("wallet_key", .str wk)]))) ∧
    dictGet (dictInsert m nm (.obj [("identity_key", .str idk),
        ("wallet_key", .str wk)])) nm
      = some (.obj [("identity_key", .str idk), ("wallet_key", .str wk)]) ∧
    ∀ n, n ≠ nm →
      dictGet (dictInsert m nm (.obj [("identity_key", .str idk),
        ("wallet_key", .str wk)])) n = dictGet m n :=
  ⟨by simp [save_private_keys, h], dictGet_insert_self _ _ _,
    fun _ hn => dictGet_insert_ne _ _ _ _ hn⟩

/-- Witness for C7: overwriting `alice`'s record in a file that also
holds `bob`'s, then reading `bob`'s record back unchanged. -/
theorem save_private_keys_updates_one_record_witness :
    load_all_keys
        (fun p => if p = privateKeysPath "/w" then
          some (.json [("alice", recAlice), ("bob", Json.obj [])]) else none)
        "/w"
      = .ok [("alice", recAlice), ("bob", Json.obj [])] ∧
    (save_private_keys
        (fun p => if p = privateKeysPath "/w" then
          some (.json [("alice", recAlice), ("bob", Json.obj [])]) else none)
        "/w" "alice" "A2" "B2" =
      .ok (writeFile
        (fun p => if p = privateKeysPath "/w" then
          some (.json [("alice", recAlice), ("bob", Json.obj [])]) else none)
        (privateKeysPath "/w")
        (dictInsert [("alice", recAlice), ("bob", Json.obj [])] "alice"
          (.obj [("identity_key", .str "A2"), ("wallet_key", .str "B2")]))) ∧
    dictGet (dictInsert [("alice", recAlice), ("bob", Json.obj [])] "alice"
        (.obj [("identity_key", .str "A2"), ("wallet_key", .str "B2")])) "alice"
      = some (.obj [("identity_key", .str "A2"), ("wallet_key", .str "B2")]) ∧
    ∀ n, n ≠ "alice" →
      dictGet (dictInsert [("alice", recAlice), ("bob", Json.obj [])] "alice"
        (.obj [("identity_key", .str "A2"), ("wallet_key", .str "B2")])) n
      = dictGet [("alice", recAlice), ("bob", Json.obj [])] n) :=
  ⟨rfl, save_private_keys_updates_one_record
    (fun p => if p = privateKeysPath "/w" then
      some (.json [("alice", recAlice), ("bob", Json.obj [])]) else none)
    "/w" "alice" "A2" "B2" [("alice", recAlice), ("bob", Json.obj [])] rfl⟩

/-- A record for `alice` whose key fields are present but empty. -/
def recEmptyFields : Json :=
  .obj [("identity_key", .str ""), ("wallet_key", .str "")]

/-- A credential file where `alice`'s record has empty key fields. -/
def fsEmptyFields : FS := fun p =>
  if p = privateKeysPath "/w" then some (.json [("alice", recEmptyFields)])
  else none

/-- A credential file where `bob`'s record is the empty object. -/
def fsEmptyRecord : FS := fun p =>
  if p = privateKeysPath "/w" then some (.json [("bob", Json.obj [])]) else none

/-- Counterexample to C8: `alice`'s record has empty key fields, yet
`get_or_create_private_keys` returns the stored empty strings with the
filesystem and the generation counter unchanged — the lookup path, not
the generation path. -/
theorem get_or_create_empty_fields_no_generation :
    get_or_create_private_keys gTest fsEmptyFields ⟨0, 0⟩ "/w" "alice"
      = .ok ((Json.str "", Json.str ""), fsEmptyFields, ⟨0, 0⟩) := rfl

/-- C8 (amended): whether `get_or_create_private_keys` takes the
generation path is decided by the truthiness of the whole record, not
by its individual key fields.  A falsy record (e.g. the empty object)
is treated as "no record": the generation path runs, generating fresh
keys (counter advances by one identity and two wallet invocations) and
persisting a record for the name.  A truthy record never generates:
the call either propagates an error from reading the record's fields,
or returns a stored pair with the filesystem and the generation
counter unchanged. -/
theorem get_or_create_truthiness_decides_generation (g : KeyGen) (fs : FS)
    (c : GenCount) (cwd nm : String) (m : JsonDict) (r : Json)
    (hf : load_all_keys fs cwd = .ok m)
    (hr : dictGet m nm = some r) :
    (r.truthy = false →
      get_or_create_private_keys g fs c cwd nm =
        .ok ((.str (g.identityKeys c.idGen), .str (g.walletKeys c.wGen)),
          writeFile fs (privateKeysPath cwd)
            (dictInsert m nm
              (.obj [("identity_key", .str (g.identityKeys c.idGen)),
                ("wallet_key", .str (g.walletKeys (c.wGen + 1)))])),
          ⟨c.idGen + 1, c.wGen + 2⟩)) ∧
    (r.truthy = true →
      (∃ e, get_or_create_private_keys g fs c cwd nm = .error e) ∨
      (∃ i w, get_or_create_private_keys g fs c cwd nm = .ok ((i, w), fs, c))) := by
  have hhas : dictHas m nm = true := dictHas_of_get_some _ _ _ hr
  constructor
  · intro hfalsy
    simp [get_or_create_private_keys, hf, hhas, hr, hfalsy, createAndSave,
      save_private_keys]
  · intro htr
    cases h1 : recordIndex r "identity_key" with
    | error e =>
      exact .inl ⟨e, by simp [get_or_create_private_keys, hf, hhas, hr, htr, h1]⟩
    | ok i =>
      cases h2 : recordIndex r "wallet_key" with
      | error e =>
        exact .inl ⟨e,
          by simp [get_or_create_private_keys, hf, hhas, hr, htr, h1, h2]⟩
      | ok w =>
        exact .inr ⟨i, w,
          by simp [get_or_create_private_keys, hf, hhas, hr, htr, h1, h2]⟩

/-- Witness for amended C8, exercising both directions: `bob`'s record
is the empty object (falsy), so the creation path runs; `alice`'s
record has empty key fields but is truthy, so no generation and no
write occur. -/
theorem get_or_create_truthiness_decides_generation_witness :
    (load_all_keys fsEmptyRecord "/w" = .ok [("bob", Json.obj [])] ∧
      dictGet [("bob", Json.obj [])] "bob" = some (Json.obj []) ∧
      (Json.obj []).truthy = false ∧
      get_or_create_private_keys gTest fsEmptyRecord ⟨0, 0⟩ "/w" "bob" =
        .ok ((.str (gTest.identityKeys 0), .str (gTest.walletKeys 0)),
          writeFile fsEmptyRecord (privateKeysPath "/w")
            (dictInsert [("bob", Json.obj [])] "bob"
              (.obj [("identity_key", .str (gTest.identityKeys 0)),
                ("wallet_key", .str (gTest.walletKeys 1))])),
          ⟨1, 2⟩)) ∧
    (load_all_keys fsEmptyFields "/w" = .ok [("alice", recEmptyFields)] ∧
      dictGet [("alice", recEmptyFields)] "alice" = some recEmptyFields ∧
      recEmptyFields.truthy = true ∧
      ((∃ e, get_or_create_private_keys gTest fsEmptyFields ⟨0, 0⟩ "/w" "alice"
          = .error e) ∨
        (∃ i w, get_or_create_private_keys gTest fsEmptyFields ⟨0, 0⟩ "/w" "alice"
          = .ok ((i, w), fsEmptyFields, ⟨0, 0⟩)))) :=
  ⟨⟨rfl, rfl, rfl,
    (get_or_create_truthiness_decides_generation gTest fsEmptyRecord ⟨0, 0⟩
      "/w" "bob" [("bob", Json.obj [])] (Json.obj []) rfl rfl).1 rfl⟩,
   ⟨rfl, rfl, rfl,
    (get_or_create_truthiness_decides_generation gTest fsEmptyFields ⟨0, 0⟩
      "/w" "alice" [("alice", recEmptyFields)] recEmptyFields rfl rfl).2 rfl⟩⟩

/-- C9: on the creation path the wallet-key primitive is invoked
twice: the record persisted to the file carries the second output
(`c.wGen + 1`) while the pair returned to the caller carries the first
(`c.wGen`); when the two outputs differ, the persisted and returned
wallet keys differ. -/
theorem creation_persists_second_wallet_key (g : KeyGen) (fs : FS)
    (c : GenCount) (cwd nm : String) (m : JsonDict)
    (hf : load_all_keys fs cwd = .ok m)
    (habs : dictHas m nm = false)
    (hdist : g.walletKeys c.wGen ≠ g.walletKeys (c.wGen + 1)) :
    get_or_create_private_keys g fs c cwd nm =
      .ok ((.str (g.identityKeys c.idGen), .str (g.walletKeys c.wGen)),
        writeFile fs (privateKeysPath cwd)
          (dictInsert m nm
            (.obj [("identity_key", .str (g.identityKeys c.idGen)),
              ("wallet_key", .str (g.walletKeys (c.wGen + 1)))])),
        ⟨c.idGen + 1, c.wGen + 2⟩) ∧
    Json.str (g.walletKeys c.wGen) ≠ Json.str (g.walletKeys (c.wGen + 1)) := by
  constructor
  · simp [get_or_create_private_keys, hf, habs, createAndSave, save_private_keys]
  · simpa using hdist

/-- Witness for C9: a fresh name against an empty filesystem, with a
generator whose first two wallet outputs differ. -/
theorem creation_persists_second_wallet_key_witness :
    load_all_keys fsEmpty "/w" = .ok [] ∧
    dictHas [] "alice" = false ∧
    gTest.walletKeys 0 ≠ gTest.walletKeys 1 ∧
    (get_or_create_private_keys gTest fsEmpty ⟨0, 0⟩ "/w" "alice" =
      .ok ((.str (gTest.identityKeys 0), .str (gTest.walletKeys 0)),
        writeFile fsEmpty (privateKeysPath "/w")
          (dictInsert [] "alice"
            (.obj [("identity_key", .str (gTest.identityKeys 0)),
              ("wallet_key", .str (gTest.walletKeys 1))])),
        ⟨1, 2⟩) ∧
      Json.str (gTest.walletKeys 0) ≠ Json.str (gTest.walletKeys 1)) :=
  ⟨rfl, rfl, by decide,
    creation_persists_second_wallet_key gTest fsEmpty ⟨0, 0⟩ "/w" "alice" []
      rfl rfl (by decide)⟩

/-- C1 (evaluation at the failing input): starting from an empty
filesystem, two sequential `get_or_create_private_keys("alice")` calls
return different pairs — the first call returns wallet key `w0` but
persists `w1`, so the second call (which generates nothing: counter
and filesystem unchanged) returns the persisted `w1`. -/
theorem get_or_create_twice_returns_different_pairs :
    ∃ p1 fs1 c1 p2,
      get_or_create_private_keys gTest fsEmpty ⟨0, 0⟩ "/w" "alice"
        = .ok (p1, fs1, c1) ∧
      get_or_create_private_keys gTest fs1 c1 "/w" "alice"
        = .ok (p2, fs1, c1) ∧
      p1 ≠ p2 := by
  refine ⟨(Json.str "id0", Json.str "w0"),
    writeFile fsEmpty (privateKeysPath "/w")
      [("alice", Json.obj [("identity_key", Json.str "id0"),
        ("wallet_key", Json.str "w1")])],
    ⟨1, 2⟩, (Json.str "id0", Json.str "w1"), rfl, rfl, ?_⟩
  intro h
  injection h with h1 h2
  injection h2 with h3
  exact absurd h3 (by decide)
